import Mathlib

/-!
Shallow embedding of the usrp_rs radio-channel simulator
(src/simulator.rs together with the trait contract in src/lib.rs).

Modelling conventions:
* f32 / f64 values are modelled as real numbers; u64 / usize as naturals.
* Random draws (Normal samples and the generator calls in the factory) are
  modelled as an explicit stream of reals carried in the receiver state
  (field rng, cursor rng_idx); the source threads a stateful generator.
* The mpsc channel is a snapshot: a queue of pending samples plus a closed
  flag.  A pull from a nonempty queue succeeds; from an empty closed
  channel it yields the recoverable channel-closed error; from an empty
  open channel it blocks, which we fold into the stuck outcome.
* Outcomes distinguish ok, a recoverable error (the failure crate Error),
  a process abort (failed assertion, or unwrap of a failed distribution
  construction), and stuck (blocking forever, or a loop that never exits;
  the delay-line eviction loop is run with a fuel of one more than the
  deque length, which suffices for every terminating case, so fuel
  exhaustion is exactly divergence of the source loop).
* Places where the Rust source is not type-correct as written are modelled
  by their evident intent: samp_rate is cast to a real inside products,
  the FloatOrd maximum of an empty tap list is 0, and the scalar
  expression assigned to cur_cfo in the factory is the corresponding real
  number embedded into the complex plane.
-/

/-- Result of a fallible step of the simulator: a value, a recoverable
error (failure crate), divergence (blocking or a non-terminating loop),
or a process abort (assertion failure or unwrap of an Err). -/
inductive Outcome (α : Type) where
  | ok : α → Outcome α
  | err : Outcome α
  | stuck : Outcome α
  | fatal : Outcome α

variable {α β : Type}

/-- Sequencing of outcomes, mirroring the question-mark operator. -/
def Outcome.bind : Outcome α → (α → Outcome β) → Outcome β
  | .ok a, f => f a
  | .err, _ => .err
  | .stuck, _ => .stuck
  | .fatal, _ => .fatal

/-- An option whose none case came from a loop that never finishes. -/
def toOutcomeStuck : Option α → Outcome α
  | some a => .ok a
  | none => .stuck

/-- An option whose none case came from a panicking unwrap. -/
def toOutcomeFatal : Option α → Outcome α
  | some a => .ok a
  | none => .fatal

def Outcome.isOk : Outcome α → Bool
  | .ok _ => true
  | _ => false

@[simp] theorem bind_ok (a : α) (f : α → Outcome β) : (Outcome.ok a).bind f = f a := rfl

@[simp] theorem bind_err (f : α → Outcome β) : (Outcome.err).bind f = .err := rfl

@[simp] theorem bind_stuck (f : α → Outcome β) : (Outcome.stuck).bind f = .stuck := rfl

@[simp] theorem bind_fatal (f : α → Outcome β) : (Outcome.fatal).bind f = .fatal := rfl

@[simp] theorem toOutcomeStuck_some (a : α) : toOutcomeStuck (some a) = .ok a := rfl

@[simp] theorem toOutcomeStuck_none : toOutcomeStuck (none : Option α) = .stuck := rfl

@[simp] theorem toOutcomeFatal_some (a : α) : toOutcomeFatal (some a) = .ok a := rfl

@[simp] theorem toOutcomeFatal_none : toOutcomeFatal (none : Option α) = .fatal := rfl

@[simp] theorem isOk_ok (a : α) : (Outcome.ok a).isOk = true := rfl

/-- Configuration of the simulated radio pair
(struct RadioSimulatorConfig, src/simulator.rs lines 14-41). -/
structure RadioSimulatorConfig where
  max_start_time_offset : ℕ
  samp_rate : ℕ
  start_freq : ℝ
  max_cfo : ℝ
  cfo_drift : ℝ
  phase_noise : ℝ
  noise : ℝ
  multipath : List (ℝ × ℂ)

/-- Receiver state (struct SimulatedRadioRx, src/simulator.rs lines 43-65).
The mpsc receiver endpoint is passed separately as a Channel value; the
random generator is the stream rng with cursor rng_idx. -/
structure SimulatedRadioRx where
  config : RadioSimulatorConfig
  rng : ℕ → ℝ
  rng_idx : ℕ
  cur_cfo : ℂ
  cum_phase_offset : ℂ
  samps_before_start : ℕ
  tot_num_samps : ℕ
  cur_freq : ℝ
  max_multipath : ℝ
  past_samps : List ℂ
  buf : List ℂ

/-- Snapshot of the std mpsc channel between transmitter and receiver:
the pending samples in send order and whether the sender was dropped. -/
structure Channel where
  queue : List ℂ
  closed : Bool

/-- Transmitter side (SimulatedRadioTx::send, src/simulator.rs lines
161-166): each sample is pushed in order into the channel. -/
def sendSamples (ch : Channel) (data : List ℂ) : Channel :=
  ⟨ch.queue ++ data, ch.closed⟩

/-- Dropping the transmitter closes the sending half; queued samples
remain deliverable. -/
def dropTransmitter (ch : Channel) : Channel :=
  ⟨ch.queue, true⟩

/-- Receiver side of the channel (self.receiver.recv() on line 100):
queued value, or channel-closed error, or block forever. -/
def chanRecv (ch : Channel) : Outcome (ℂ × Channel) :=
  match ch.queue with
  | c :: rest => .ok (c, ⟨rest, ch.closed⟩)
  | [] => if ch.closed then .err else .stuck

@[simp] theorem chanRecv_cons (c : ℂ) (q : List ℂ) (b : Bool) :
    chanRecv ⟨c :: q, b⟩ = .ok (c, ⟨q, b⟩) := rfl

@[simp] theorem chanRecv_nil_closed : chanRecv ⟨[], true⟩ = .err := rfl

/-- The delay-line eviction loop of next_sample (lines 106-108):
while past_samps.len() is at least max_past_samples, pop from the back.
Fuel-indexed; popping the back of a deque is dropLast, a no-op on an
empty deque, exactly as VecDeque::pop_back returning None. -/
def evictLoop : ℕ → List ℂ → ℕ → Option (List ℂ)
  | 0, _, _ => none
  | f + 1, q, m => if m ≤ q.length then evictLoop f q.dropLast m else some q

/-- The eviction loop run with fuel one larger than the deque length.
When the bound m is at least 1 every iteration with the guard true strictly
shrinks the deque, so this fuel always suffices; when m = 0 the guard never
fails and the source loop never exits. -/
def evictRun (q : List ℂ) (m : ℕ) : Option (List ℂ) :=
  evictLoop (q.length + 1) q m

theorem evictLoop_zero_bound (f : ℕ) : ∀ q : List ℂ, evictLoop f q 0 = none := by
  induction f with
  | zero => intro q; rfl
  | succ f ih => intro q; simpa [evictLoop] using ih q.dropLast

theorem evictRun_zero_bound (q : List ℂ) : evictRun q 0 = none :=
  evictLoop_zero_bound _ q

theorem evictLoop_pos_bound {m : ℕ} (hm : 1 ≤ m) :
    ∀ (f : ℕ) (q : List ℂ), q.length < f → ∃ q', evictLoop f q m = some q' := by
  intro f
  induction f with
  | zero => intro q h; omega
  | succ f ih =>
      intro q hq
      by_cases h : m ≤ q.length
      · have hlen : q.dropLast.length < f := by
          rw [List.length_dropLast]; omega
        obtain ⟨q', hq'⟩ := ih q.dropLast hlen
        exact ⟨q', by simpa [evictLoop, h] using hq'⟩
      · exact ⟨q, by simp [evictLoop, h]⟩

theorem evictRun_pos_bound (q : List ℂ) {m : ℕ} (hm : 1 ≤ m) :
    ∃ q', evictRun q m = some q' :=
  evictLoop_pos_bound hm (q.length + 1) q (Nat.lt_succ_self _)

/-- Multipath mixing (next_sample lines 111-122): for each (delay,
attenuation) tap, the integer offset is round(delay times cur_freq) cast
to usize, and the attenuated past sample is added when the history is long
enough.  The saturating float-to-usize cast is Int.toNat of the rounding. -/
noncomputable def multipathFold (taps : List (ℝ × ℂ)) (freq : ℝ)
    (past : List ℂ) (samp : ℂ) : ℂ :=
  taps.foldl (fun s t =>
    let i := (round (t.1 * freq)).toNat
    if i < past.length then s + t.2 * past.getD i 0 else s) samp

/-- CFO drift and bounding (update_cum_phase_offset lines 74-83): rotate
cur_cfo by the drawn angle d; if the phase falls below the lower bound,
replace with exp(-max_cfo i) (line 80); if it exceeds the upper bound,
replace with the complex number (0, max_cfo) as written on line 82, which
is not a unit phasor. -/
noncomputable def cfoDriftClamp (maxCfo : ℝ) (cur : ℂ) (d : ℝ) : ℂ :=
  let c1 := cur * Complex.exp ((d : ℂ) * Complex.I)
  if c1.arg < -maxCfo then Complex.exp ((-maxCfo : ℂ) * Complex.I)
  else if maxCfo < c1.arg then ⟨0, maxCfo⟩
  else c1

/-- Division of a complex value by its own norm (lines 84 and 92). -/
noncomputable def renorm (c : ℂ) : ℂ :=
  c / ((Complex.abs c : ℝ) : ℂ)

/-- Body of update_cum_phase_offset (lines 73-93) once the two Normal
constructions are known to succeed: draw the drift angle, clamp,
renormalize, draw the phase-noise angle, rotate the cumulative offset,
multiply by the new CFO, renormalize. -/
noncomputable def updateCore (st : SimulatedRadioRx) : SimulatedRadioRx :=
  let c3 := renorm (cfoDriftClamp st.config.max_cfo st.cur_cfo (st.rng st.rng_idx))
  let cp := st.cum_phase_offset *
    Complex.exp ((st.rng (st.rng_idx + 1) : ℂ) * Complex.I) * c3
  { st with cur_cfo := c3, cum_phase_offset := renorm cp,
            rng_idx := st.rng_idx + 2 }

/-- The function update_cum_phase_offset (lines 73-93).  Normal::new(0., sigma) fails
exactly when sigma is negative and both constructions are unwrapped, so a
negative cfo_drift or phase_noise aborts the process mid-sample; the
failure is hoisted before the state change since an abort makes the
intermediate state unobservable. -/
noncomputable def updateCumPhaseOffset (st : SimulatedRadioRx) :
    Option SimulatedRadioRx :=
  if st.config.cfo_drift < 0 then none
  else if st.config.phase_noise < 0 then none
  else some (updateCore st)

/-- Streaming tail of next_sample after the history update (lines
110-131): multipath mixing, CFO update (abort on negative drift or phase
noise std), multiplication by the cumulative phase offset, then additive
noise whose Normal construction error propagates as a recoverable error. -/
noncomputable def streamBody (st : SimulatedRadioRx) (samp : ℂ)
    (past : List ℂ) (ch' : Channel) : Outcome (ℂ × SimulatedRadioRx × Channel) :=
  (toOutcomeFatal (updateCumPhaseOffset { st with past_samps := past })).bind
    fun st2 =>
      if st2.config.noise < 0 then .err
      else
        .ok (multipathFold st.config.multipath st.cur_freq past samp *
              st2.cum_phase_offset +
              ⟨st2.rng st2.rng_idx, st2.rng (st2.rng_idx + 1)⟩,
          { st2 with rng_idx := st2.rng_idx + 2 }, ch')

/-- Streaming branch of next_sample after a successful pull (lines
102-131): the sanity assertion on the history size (line 103) aborts when
max_multipath times samp_rate is not below 1e6; otherwise the fresh sample
is pushed to the front of the delay line and the eviction loop runs. -/
noncomputable def streamPull (st : SimulatedRadioRx) (samp : ℂ)
    (ch' : Channel) : Outcome (ℂ × SimulatedRadioRx × Channel) :=
  if st.max_multipath * (st.config.samp_rate : ℝ) < 1000000 then
    (toOutcomeStuck (evictRun (samp :: st.past_samps)
        ⌈st.max_multipath * (st.config.samp_rate : ℝ)⌉₊)).bind
      fun past => streamBody st samp past ch'
  else .fatal

/-- The function next_sample (lines 96-133): during priming (tot_num_samps below
samps_before_start) emit a zero without touching the channel; otherwise
pull one sample and run the impairment pipeline. -/
noncomputable def nextSample (st : SimulatedRadioRx) (ch : Channel) :
    Outcome (ℂ × SimulatedRadioRx × Channel) :=
  if st.tot_num_samps < st.samps_before_start then .ok (0, st, ch)
  else (chanRecv ch).bind fun p => streamPull st p.1 p.2

/-- The recv fill loop (lines 147-149): remaining count n, write index i. -/
noncomputable def recvLoop : ℕ → ℕ → SimulatedRadioRx → Channel →
    Outcome (SimulatedRadioRx × Channel)
  | _, 0, st, ch => .ok (st, ch)
  | i, n + 1, st, ch =>
    (nextSample st ch).bind fun r =>
      recvLoop (i + 1) n { r.2.1 with buf := r.2.1.buf.set i r.1 } r.2.2

/-- What RadioRx::recv returns: the borrowed buffer contents, the second
component len as u64 (line 151), and the successor state and channel. -/
structure RecvResult where
  samples : List ℂ
  timestamp : ℕ
  rx : SimulatedRadioRx
  ch : Channel

/-- The method recv (lines 142-152): grow the reuse buffer to len if shorter, fill
the first len slots from next_sample, and return the whole buffer. -/
noncomputable def recvModel (st : SimulatedRadioRx) (ch : Channel)
    (len : ℕ) : Outcome RecvResult :=
  let st0 := if st.buf.length < len then
      { st with buf := st.buf ++ List.replicate (len - st.buf.length) (0 : ℂ) }
    else st
  (recvLoop 0 len st0 ch).bind fun r => .ok ⟨r.1.buf, len, r.1, r.2⟩

/-- Maximum multipath delay derived in the factory (lines 180-185); the
maximum of an empty tap list is taken to be 0. -/
noncomputable def maxMultipath (taps : List (ℝ × ℂ)) : ℝ :=
  taps.foldl (fun m t => max m t.1) 0

/-- The factory create_simulator (lines 175-204), receiver half.  The draws r1, r2
are the two generator calls producing reals in the unit interval and r3
the u64 draw; samps_before_start is r3 modulo max_start_time_offset, and
the remainder by zero aborts, so a zero max_start_time_offset yields no
simulator.  cur_cfo is the real scalar 2 r1 max_cfo - max_cfo placed on
the real axis; cum_phase_offset is from_polar(1, 2 pi r2). -/
noncomputable def createSimulator (config : RadioSimulatorConfig)
    (rng : ℕ → ℝ) (r1 r2 : ℝ) (r3 : ℕ) : Option SimulatedRadioRx :=
  if config.max_start_time_offset = 0 then none
  else some
    { config := config
      rng := rng
      rng_idx := 0
      cur_cfo := ((2 * r1 * config.max_cfo - config.max_cfo : ℝ) : ℂ)
      cum_phase_offset := Complex.exp (((r2 * (2 * Real.pi)) : ℂ) * Complex.I)
      samps_before_start := r3 % config.max_start_time_offset
      tot_num_samps := 0
      cur_freq := config.start_freq
      max_multipath := maxMultipath config.multipath
      past_samps := []
      buf := [] }

/-- The tot_num_samps accessor (lines 138-140). -/
def totNumSamps (st : SimulatedRadioRx) : ℕ := st.tot_num_samps

/-! Concrete states for the control-flow claims. -/

/-- A configuration with no impairments and no multipath taps. -/
noncomputable def cfgPlain : RadioSimulatorConfig :=
  { max_start_time_offset := 6, samp_rate := 1, start_freq := 0,
    max_cfo := 0, cfo_drift := 0, phase_noise := 0, noise := 0,
    multipath := [] }

/-- A receiver five samples away from the end of priming, as produced by
the factory for cfgPlain when the u64 draw is 5 (5 mod 6 = 5). -/
noncomputable def rxPrime : SimulatedRadioRx :=
  { config := cfgPlain, rng := fun _ => 0, rng_idx := 0,
    cur_cfo := 1, cum_phase_offset := 1, samps_before_start := 5,
    tot_num_samps := 0, cur_freq := 0, max_multipath := 0,
    past_samps := [], buf := [] }

/-- The state rxPrime after a recv of two samples: only the buffer grew. -/
noncomputable def rxPrimeA : SimulatedRadioRx :=
  { rxPrime with buf := [0, 0] }

/-- Claim C1: recv(len) is supposed to return exactly len samples and to
advance tot_num_samps by len.  Evaluating the code at the failing input:
from a fresh receiver with start-delay 5, recv(2) succeeds yet leaves
tot_num_samps at 0 (the counter is never incremented anywhere in the
source), and the following recv(1) returns the whole reused buffer of
length 2 rather than exactly 1 sample. -/
theorem c1_recv_counter_frozen :
    recvModel rxPrime ⟨[], false⟩ 2 =
      .ok ⟨[0, 0], 2, rxPrimeA, ⟨[], false⟩⟩ ∧
    totNumSamps rxPrimeA = 0 ∧
    recvModel rxPrimeA ⟨[], false⟩ 1 =
      .ok ⟨[0, 0], 1, rxPrimeA, ⟨[], false⟩⟩ ∧
    ([0, 0] : List ℂ).length = 2 :=
  ⟨rfl, rfl, rfl, rfl⟩

/-- A receiver one sample away from the end of priming (factory output
for a max_start_time_offset of 2 and u64 draw 1). -/
noncomputable def rxGate : SimulatedRadioRx :=
  { config := { cfgPlain with max_start_time_offset := 2 },
    rng := fun _ => 0, rng_idx := 0,
    cur_cfo := 1, cum_phase_offset := 1, samps_before_start := 1,
    tot_num_samps := 0, cur_freq := 0, max_multipath := 0,
    past_samps := [], buf := [] }

/-- Claim C2: the Priming-to-Streaming transition is supposed to happen
once the produced count reaches the start-delay.  Evaluating the code:
with start-delay 1 and a sample already queued by the transmitter,
recv(3) yields three priming zeros, never touches the channel, and the
counter that drives the transition still reads 0 afterwards, so the
receiver never leaves the Priming phase. -/
theorem c2_priming_never_ends :
    recvModel rxGate ⟨[1], false⟩ 3 =
      .ok ⟨[0, 0, 0], 3, { rxGate with buf := [0, 0, 0] }, ⟨[1], false⟩⟩ ∧
    totNumSamps { rxGate with buf := [0, 0, 0] } = 0 :=
  ⟨rfl, rfl⟩

/-- Claim C8: with max_start_time_offset = 0 construction is supposed to
succeed with a start-delay of 0.  Evaluating the code: the factory
computes the u64 draw modulo max_start_time_offset, and the remainder by
zero aborts, so no simulator is produced for any draws. -/
theorem c8_construction_aborts_on_zero_offset :
    createSimulator { cfgPlain with max_start_time_offset := 0 }
      (fun _ => 0) 0 0 0 = none :=
  rfl

/-! Projection lemmas for the record updates used by the pipeline. -/

@[simp] theorem setPast_config (st : SimulatedRadioRx) (p : List ℂ) :
    ({ st with past_samps := p } : SimulatedRadioRx).config = st.config := rfl

@[simp] theorem setPast_sbs (st : SimulatedRadioRx) (p : List ℂ) :
    ({ st with past_samps := p } : SimulatedRadioRx).samps_before_start =
      st.samps_before_start := rfl

@[simp] theorem setPast_tot (st : SimulatedRadioRx) (p : List ℂ) :
    ({ st with past_samps := p } : SimulatedRadioRx).tot_num_samps =
      st.tot_num_samps := rfl

@[simp] theorem setPast_maxmp (st : SimulatedRadioRx) (p : List ℂ) :
    ({ st with past_samps := p } : SimulatedRadioRx).max_multipath =
      st.max_multipath := rfl

@[simp] theorem setBuf_config (st : SimulatedRadioRx) (b : List ℂ) :
    ({ st with buf := b } : SimulatedRadioRx).config = st.config := rfl

@[simp] theorem setBuf_sbs (st : SimulatedRadioRx) (b : List ℂ) :
    ({ st with buf := b } : SimulatedRadioRx).samps_before_start =
      st.samps_before_start := rfl

@[simp] theorem setBuf_tot (st : SimulatedRadioRx) (b : List ℂ) :
    ({ st with buf := b } : SimulatedRadioRx).tot_num_samps =
      st.tot_num_samps := rfl

@[simp] theorem setBuf_maxmp (st : SimulatedRadioRx) (b : List ℂ) :
    ({ st with buf := b } : SimulatedRadioRx).max_multipath =
      st.max_multipath := rfl

@[simp] theorem setIdx_config (st : SimulatedRadioRx) (n : ℕ) :
    ({ st with rng_idx := n } : SimulatedRadioRx).config = st.config := rfl

@[simp] theorem setIdx_sbs (st : SimulatedRadioRx) (n : ℕ) :
    ({ st with rng_idx := n } : SimulatedRadioRx).samps_before_start =
      st.samps_before_start := rfl

@[simp] theorem setIdx_tot (st : SimulatedRadioRx) (n : ℕ) :
    ({ st with rng_idx := n } : SimulatedRadioRx).tot_num_samps =
      st.tot_num_samps := rfl

@[simp] theorem setIdx_maxmp (st : SimulatedRadioRx) (n : ℕ) :
    ({ st with rng_idx := n } : SimulatedRadioRx).max_multipath =
      st.max_multipath := rfl

@[simp] theorem updateCore_config (st : SimulatedRadioRx) :
    (updateCore st).config = st.config := rfl

@[simp] theorem updateCore_sbs (st : SimulatedRadioRx) :
    (updateCore st).samps_before_start = st.samps_before_start := rfl

@[simp] theorem updateCore_tot (st : SimulatedRadioRx) :
    (updateCore st).tot_num_samps = st.tot_num_samps := rfl

@[simp] theorem updateCore_maxmp (st : SimulatedRadioRx) :
    (updateCore st).max_multipath = st.max_multipath := rfl

/-- A receiver produced by the factory for the impairment-free
configuration with max_start_time_offset 1: the start delay is the u64
draw modulo 1, that is 0, so it streams from the first sample; with
max_cfo 0 the initial cur_cfo scalar is 0; the phase draw 0 gives a
cumulative phase offset of 1. -/
noncomputable def rxIdentity : SimulatedRadioRx :=
  { config := { cfgPlain with max_start_time_offset := 1 },
    rng := fun _ => 0, rng_idx := 0,
    cur_cfo := 0, cum_phase_offset := 1, samps_before_start := 0,
    tot_num_samps := 0, cur_freq := 0, max_multipath := 0,
    past_samps := [], buf := [] }

/-- With no multipath taps the history capacity ceil(0 * samp_rate) is 0
and the eviction guard never fails, so the first streaming pull never
returns. -/
theorem nextSample_stuck_of_no_taps (st : SimulatedRadioRx) (c : ℂ)
    (q : List ℂ) (b : Bool)
    (h1 : st.samps_before_start ≤ st.tot_num_samps)
    (h2 : st.max_multipath = 0) :
    nextSample st ⟨c :: q, b⟩ = .stuck := by
  unfold nextSample
  rw [if_neg (not_lt.2 h1)]
  rw [chanRecv_cons, bind_ok]
  unfold streamPull
  rw [h2]
  rw [if_pos (by norm_num)]
  simp [evictRun_zero_bound]

/-- Claim C10: the delay-line eviction loop is supposed to exit for every
history bound, including 0.  The loop never exits when the bound is 0
(the guard holds for every deque and popping an empty deque is a no-op),
and consequently the per-sample step of a streaming receiver with no
multipath taps never returns. -/
theorem c10_evict_loop_diverges :
    (∀ (f : ℕ) (q : List ℂ), evictLoop f q 0 = none) ∧
    nextSample rxIdentity ⟨[1], false⟩ = .stuck := by
  constructor
  · exact fun f q => evictLoop_zero_bound f q
  · exact nextSample_stuck_of_no_taps rxIdentity 1 [] false (Nat.le_refl 0) rfl

/-- One streaming sample with no taps makes the whole recv call diverge,
whatever the requested length (at least 1) and whatever is queued. -/
theorem recvLoop_stuck_of_no_taps (st : SimulatedRadioRx) (c : ℂ)
    (q : List ℂ) (b : Bool) (i n : ℕ)
    (h1 : st.samps_before_start ≤ st.tot_num_samps)
    (h2 : st.max_multipath = 0) :
    recvLoop i (n + 1) st ⟨c :: q, b⟩ = .stuck := by
  show (nextSample st ⟨c :: q, b⟩).bind _ = .stuck
  rw [nextSample_stuck_of_no_taps st c q b h1 h2]
  rfl

/-- Claim C5 (counterexample): with max_cfo = 0, phase_noise = 0,
noise = 0 and no multipath taps, after one sample is sent, recv(1) from
the factory-produced receiver does not return the sent sample: it never
returns at all, diverging in the delay-line eviction loop. -/
theorem c5_identity_counterexample :
    recvModel rxIdentity (sendSamples ⟨[], false⟩ [1]) 1 = .stuck := by
  show (recvLoop 0 1 { rxIdentity with buf := [0] } ⟨[1], false⟩).bind
      (fun r => Outcome.ok (RecvResult.mk r.1.buf 1 r.1 r.2)) = Outcome.stuck
  rw [recvLoop_stuck_of_no_taps _ 1 [] false 0 0 (Nat.le_refl 0) rfl]
  rfl

/-- Claim C5 (amended): with an empty multipath tap list (as in the
identity-channel setting max_cfo = 0, phase_noise = 0, noise = 0, no
taps), a streaming receiver's recv never returns any block: the first
per-sample step diverges in the delay-line eviction loop, whose capacity
rounds to 0. -/
theorem c5_recv_diverges_without_taps (st : SimulatedRadioRx) (c : ℂ)
    (q : List ℂ) (b : Bool) (n : ℕ)
    (h1 : st.samps_before_start ≤ st.tot_num_samps)
    (h2 : st.max_multipath = 0) :
    recvModel st ⟨c :: q, b⟩ (n + 1) = .stuck := by
  simp only [recvModel]
  split
  · rw [recvLoop_stuck_of_no_taps _ c q b 0 n (by simpa using h1) (by simpa using h2)]
    rfl
  · rw [recvLoop_stuck_of_no_taps _ c q b 0 n h1 h2]
    rfl

/-- Witness for c5_recv_diverges_without_taps at the factory-produced
identity receiver with one queued sample. -/
theorem c5_recv_diverges_without_taps_witness :
    recvModel rxIdentity ⟨[1], false⟩ 1 = .stuck :=
  c5_recv_diverges_without_taps rxIdentity 1 [] false 0 (Nat.le_refl 0) rfl

/-- Configuration whose maximum multipath delay (2 s) at samp_rate 1e6
would require 2e6 history slots, violating the sanity bound. -/
noncomputable def cfgBigDelay : RadioSimulatorConfig :=
  { max_start_time_offset := 1, samp_rate := 1000000, start_freq := 0,
    max_cfo := 0, cfo_drift := 0, phase_noise := 0, noise := 0,
    multipath := [(2, 1)] }

/-- Claim C6 (counterexample): the factory is supposed to reject a
configuration whose maximum multipath delay would require more than one
million history slots, but create_simulator performs no such check and
returns a connected receiver for cfgBigDelay. -/
theorem c6_factory_accepts_oversized_delay :
    (createSimulator cfgBigDelay (fun _ => 0) 0 0 0).isSome = true := rfl

/-- Claim C6 (amended): the sanity bound on the history size is not a
construction-time check; it is an assertion evaluated on every
streaming-phase sample, and a streaming pull aborts the process whenever
max_multipath times samp_rate is not below 1e6. -/
theorem c6_sanity_bound_deferred_to_streaming (st : SimulatedRadioRx)
    (c : ℂ) (q : List ℂ) (b : Bool)
    (h1 : st.samps_before_start ≤ st.tot_num_samps)
    (h2 : ¬ st.max_multipath * (st.config.samp_rate : ℝ) < 1000000) :
    nextSample st ⟨c :: q, b⟩ = .fatal := by
  unfold nextSample
  rw [if_neg (not_lt.2 h1), chanRecv_cons, bind_ok]
  unfold streamPull
  rw [if_neg h2]

/-- The receiver produced by the factory for cfgBigDelay (derived
max_multipath 2, start delay 0 mod 1 = 0). -/
noncomputable def rxBigDelay : SimulatedRadioRx :=
  { config := cfgBigDelay, rng := fun _ => 0, rng_idx := 0,
    cur_cfo := 0, cum_phase_offset := 1, samps_before_start := 0,
    tot_num_samps := 0, cur_freq := 0, max_multipath := 2,
    past_samps := [], buf := [] }

/-- Witness for c6_sanity_bound_deferred_to_streaming: the first
streaming pull on the cfgBigDelay receiver aborts. -/
theorem c6_sanity_bound_deferred_to_streaming_witness :
    nextSample rxBigDelay ⟨[1], false⟩ = .fatal :=
  c6_sanity_bound_deferred_to_streaming rxBigDelay 1 [] false
    (Nat.le_refl 0) (by norm_num [rxBigDelay, cfgBigDelay])

/-- Configuration with a negative additive-noise standard deviation and a
single one-second tap (history capacity 1 at samp_rate 1). -/
noncomputable def cfgNegNoise : RadioSimulatorConfig :=
  { max_start_time_offset := 1, samp_rate := 1, start_freq := 0,
    max_cfo := 0, cfo_drift := 0, phase_noise := 0, noise := -1,
    multipath := [(1, 1)] }

/-- Claim C7 (counterexample): a negative standard deviation is supposed
to be rejected at construction time, but create_simulator performs no
validation and returns a connected receiver for cfgNegNoise. -/
theorem c7_factory_accepts_negative_sigma :
    (createSimulator cfgNegNoise (fun _ => 0) 0 0 0).isSome = true := rfl

/-- Claim C7 (amended): negative standard deviations surface only during
streaming: with nonnegative cfo_drift and phase_noise (so the two
unwrapped Normal constructions inside the per-sample CFO update do not
abort first) and a negative noise standard deviation, every streaming
pull returns the recoverable error produced by the failed Normal
construction for the additive noise, deep inside per-sample processing. -/
theorem c7_negative_sigma_fails_per_sample (st : SimulatedRadioRx)
    (c : ℂ) (q : List ℂ) (b : Bool)
    (h1 : st.samps_before_start ≤ st.tot_num_samps)
    (h2 : st.max_multipath * (st.config.samp_rate : ℝ) < 1000000)
    (h3 : 1 ≤ ⌈st.max_multipath * (st.config.samp_rate : ℝ)⌉₊)
    (h4 : ¬ st.config.cfo_drift < 0)
    (h5 : ¬ st.config.phase_noise < 0)
    (h6 : st.config.noise < 0) :
    nextSample st ⟨c :: q, b⟩ = .err := by
  unfold nextSample
  rw [if_neg (not_lt.2 h1), chanRecv_cons, bind_ok]
  unfold streamPull
  rw [if_pos h2]
  obtain ⟨past, hpast⟩ := evictRun_pos_bound (c :: st.past_samps) h3
  rw [hpast, toOutcomeStuck_some, bind_ok]
  unfold streamBody updateCumPhaseOffset
  rw [if_neg (by simpa using h4), if_neg (by simpa using h5)]
  rw [toOutcomeFatal_some, bind_ok]
  rw [if_pos (by simpa using h6)]

/-- The receiver produced by the factory for cfgNegNoise (derived
max_multipath 1, start delay 0). -/
noncomputable def rxNegNoise : SimulatedRadioRx :=
  { config := cfgNegNoise, rng := fun _ => 0, rng_idx := 0,
    cur_cfo := 0, cum_phase_offset := 1, samps_before_start := 0,
    tot_num_samps := 0, cur_freq := 0, max_multipath := 1,
    past_samps := [], buf := [] }

/-- Witness for c7_negative_sigma_fails_per_sample: the first streaming
pull on the cfgNegNoise receiver yields the recoverable error. -/
theorem c7_negative_sigma_fails_per_sample_witness :
    nextSample rxNegNoise ⟨[1], false⟩ = .err :=
  c7_negative_sigma_fails_per_sample rxNegNoise 1 [] false
    (Nat.le_refl 0)
    (by norm_num [rxNegNoise, cfgNegNoise])
    (by norm_num [rxNegNoise, cfgNegNoise])
    (by norm_num [rxNegNoise, cfgNegNoise])
    (by norm_num [rxNegNoise, cfgNegNoise])
    (by norm_num [rxNegNoise, cfgNegNoise])

/-- Configuration with maximum CFO 1 radian/sample and no stochastic
impairments. -/
noncomputable def cfgCfoOne : RadioSimulatorConfig :=
  { max_start_time_offset := 1, samp_rate := 1, start_freq := 0,
    max_cfo := 1, cfo_drift := 0, phase_noise := 0, noise := 0,
    multipath := [(1, 1)] }

/-- The receiver produced by the factory for cfgCfoOne when the uniform
draw r1 is 0: the initial cur_cfo scalar is 2*0*1 - 1 = -1. -/
noncomputable def rxCfoNegOne : SimulatedRadioRx :=
  { config := cfgCfoOne, rng := fun _ => 0, rng_idx := 0,
    cur_cfo := -1, cum_phase_offset := 1, samps_before_start := 0,
    tot_num_samps := 0, cur_freq := 0, max_multipath := 1,
    past_samps := [], buf := [] }

/-- Claim C3: after a CFO-drift step the phase of cur_cfo is supposed to
stay within max_cfo in absolute value.  Evaluating the code at the
failing input: with max_cfo = 1 and cur_cfo = -1 (arg pi, above the
bound), the upper clamp branch stores the non-phasor (0, max_cfo), whose
normalization is the imaginary unit with arg pi/2, strictly above the
bound max_cfo = 1; the symmetric lower branch applies exp, so the missing
exp on the upper branch is the slip. -/
theorem c3_upper_clamp_overshoots_bound :
    (updateCumPhaseOffset rxCfoNegOne).map (fun s => s.cur_cfo) =
      some Complex.I ∧
    rxCfoNegOne.config.max_cfo < |Complex.arg Complex.I| := by
  have hne : ¬ Real.pi < -(1 : ℝ) := by linarith [Real.pi_pos]
  have hgt : (1 : ℝ) < Real.pi := by linarith [Real.pi_gt_three]
  have hclamp : cfoDriftClamp rxCfoNegOne.config.max_cfo rxCfoNegOne.cur_cfo
      (rxCfoNegOne.rng rxCfoNegOne.rng_idx) = ⟨0, 1⟩ := by
    show cfoDriftClamp 1 (-1) 0 = ⟨0, 1⟩
    unfold cfoDriftClamp
    simp only [Complex.ofReal_zero, zero_mul, Complex.exp_zero, mul_one]
    rw [if_neg (by rw [Complex.arg_neg_one]; exact hne),
        if_pos (by rw [Complex.arg_neg_one]; exact hgt)]
  have hrenorm : renorm (⟨0, 1⟩ : ℂ) = Complex.I := by
    show renorm Complex.I = Complex.I
    unfold renorm
    rw [Complex.abs_I, Complex.ofReal_one, div_one]
  have h0 : updateCumPhaseOffset rxCfoNegOne = some (updateCore rxCfoNegOne) := by
    unfold updateCumPhaseOffset
    rw [if_neg (by norm_num [rxCfoNegOne, cfgCfoOne]),
        if_neg (by norm_num [rxCfoNegOne, cfgCfoOne])]
  constructor
  · rw [h0, Option.map_some']
    have hcur : (updateCore rxCfoNegOne).cur_cfo = Complex.I := by
      show renorm (cfoDriftClamp rxCfoNegOne.config.max_cfo rxCfoNegOne.cur_cfo
        (rxCfoNegOne.rng rxCfoNegOne.rng_idx)) = Complex.I
      rw [hclamp]; exact hrenorm
    simp only [hcur]
  · show (1 : ℝ) < |Complex.arg Complex.I|
    rw [Complex.arg_I, abs_of_pos (by positivity)]
    linarith [Real.pi_gt_three]

/-- Claim C4 (counterexample): with max_cfo = 0 the factory initializes
cur_cfo to the scalar 0; the drift step keeps it 0, the division by its
own norm is a division by zero, and the cumulative phase offset is then
multiplied by 0 as well, so after the update both magnitudes are 0
rather than 1. -/
theorem c4_zero_cfo_collapses :
    (updateCumPhaseOffset rxIdentity).map
      (fun s => (Complex.abs s.cur_cfo, Complex.abs s.cum_phase_offset)) =
      some (0, 0) ∧ (0 : ℝ) ≠ 1 := by
  have hclamp : cfoDriftClamp rxIdentity.config.max_cfo rxIdentity.cur_cfo
      (rxIdentity.rng rxIdentity.rng_idx) = 0 := by
    show cfoDriftClamp 0 0 0 = 0
    unfold cfoDriftClamp
    simp [Complex.arg_zero]
  have hre : renorm (0 : ℂ) = 0 := by
    unfold renorm
    rw [zero_div]
  have h0 : updateCumPhaseOffset rxIdentity = some (updateCore rxIdentity) := by
    unfold updateCumPhaseOffset
    rw [if_neg (by norm_num [rxIdentity, cfgPlain]),
        if_neg (by norm_num [rxIdentity, cfgPlain])]
  constructor
  · rw [h0, Option.map_some']
    have hcur : (updateCore rxIdentity).cur_cfo = 0 := by
      show renorm (cfoDriftClamp rxIdentity.config.max_cfo rxIdentity.cur_cfo
        (rxIdentity.rng rxIdentity.rng_idx)) = 0
      rw [hclamp]; exact hre
    have hcum : (updateCore rxIdentity).cum_phase_offset = 0 := by
      show renorm (rxIdentity.cum_phase_offset *
        Complex.exp ((rxIdentity.rng (rxIdentity.rng_idx + 1) : ℂ) * Complex.I) *
        renorm (cfoDriftClamp rxIdentity.config.max_cfo rxIdentity.cur_cfo
          (rxIdentity.rng rxIdentity.rng_idx))) = 0
      rw [hclamp, hre, mul_zero]
      exact hre
    simp only [hcur, hcum, map_zero]
  · norm_num

/-- Claim C4 (amended): whenever the drifted-and-clamped CFO value is
nonzero and the incoming cumulative phase offset is nonzero (and the two
Normal constructions succeed), the per-sample update renormalizes both to
magnitude exactly 1. -/
theorem c4_magnitudes_one_when_nonzero (st : SimulatedRadioRx)
    (h0 : ¬ st.config.cfo_drift < 0) (h1 : ¬ st.config.phase_noise < 0)
    (h2 : cfoDriftClamp st.config.max_cfo st.cur_cfo (st.rng st.rng_idx) ≠ 0)
    (h3 : st.cum_phase_offset ≠ 0) :
    (updateCumPhaseOffset st).map
      (fun s => (Complex.abs s.cur_cfo, Complex.abs s.cum_phase_offset)) =
      some (1, 1) := by
  have habs : ∀ c : ℂ, c ≠ 0 → Complex.abs (renorm c) = 1 := by
    intro c hc
    unfold renorm
    rw [map_div₀, Complex.abs_ofReal, abs_of_nonneg (Complex.abs.nonneg c),
        div_self (Complex.abs.ne_zero hc)]
  have hrenne : renorm (cfoDriftClamp st.config.max_cfo st.cur_cfo
      (st.rng st.rng_idx)) ≠ 0 := by
    unfold renorm
    exact div_ne_zero h2 (Complex.ofReal_ne_zero.2 (Complex.abs.ne_zero h2))
  unfold updateCumPhaseOffset
  rw [if_neg h0, if_neg h1, Option.map_some']
  have hcur : Complex.abs ((updateCore st).cur_cfo) = 1 := habs _ h2
  have hcum : Complex.abs ((updateCore st).cum_phase_offset) = 1 :=
    habs _ (mul_ne_zero (mul_ne_zero h3 (Complex.exp_ne_zero _)) hrenne)
  show some (Complex.abs (updateCore st).cur_cfo,
    Complex.abs (updateCore st).cum_phase_offset) = some (1, 1)
  rw [hcur, hcum]

/-- Witness for c4_magnitudes_one_when_nonzero at the impairment-free
receiver rxPrime, whose cur_cfo and cumulative phase offset are 1. -/
theorem c4_magnitudes_one_when_nonzero_witness :
    (updateCumPhaseOffset rxPrime).map
      (fun s => (Complex.abs s.cur_cfo, Complex.abs s.cum_phase_offset)) =
      some (1, 1) :=
  c4_magnitudes_one_when_nonzero rxPrime
    (by norm_num [rxPrime, cfgPlain])
    (by norm_num [rxPrime, cfgPlain])
    (by simp [cfoDriftClamp, rxPrime, cfgPlain])
    (by simp [rxPrime])

/-- A streaming-phase receiver on which every per-sample step can run to
completion: priming over, sanity assertion satisfied, at least one
history slot so the eviction loop exits, and nonnegative standard
deviations so no distribution construction fails. -/
def StreamReady (st : SimulatedRadioRx) : Prop :=
  st.samps_before_start ≤ st.tot_num_samps ∧
  st.max_multipath * (st.config.samp_rate : ℝ) < 1000000 ∧
  1 ≤ ⌈st.max_multipath * (st.config.samp_rate : ℝ)⌉₊ ∧
  0 ≤ st.config.cfo_drift ∧ 0 ≤ st.config.phase_noise ∧ 0 ≤ st.config.noise

theorem streamReady_setBuf (st : SimulatedRadioRx) (b : List ℂ)
    (h : StreamReady st) : StreamReady { st with buf := b } := by
  obtain ⟨k1, k2, k3, k4, k5, k6⟩ := h
  exact ⟨by simpa using k1, by simpa using k2, by simpa using k3,
    by simpa using k4, by simpa using k5, by simpa using k6⟩

/-- On a StreamReady receiver, a pull from a nonempty queue completes and
consumes exactly the head, leaving a state that is again StreamReady. -/
theorem nextSample_cons (st : SimulatedRadioRx) (c : ℂ) (q : List ℂ)
    (b : Bool) (h : StreamReady st) :
    ∃ v st', nextSample st ⟨c :: q, b⟩ = .ok (v, st', ⟨q, b⟩) ∧
      StreamReady st' := by
  obtain ⟨h1, h2, h3, h4, h5, h6⟩ := h
  obtain ⟨past, hpast⟩ := evictRun_pos_bound (c :: st.past_samps) h3
  refine ⟨multipathFold st.config.multipath st.cur_freq past c *
      (updateCore { st with past_samps := past }).cum_phase_offset +
      ⟨(updateCore { st with past_samps := past }).rng
          (updateCore { st with past_samps := past }).rng_idx,
        (updateCore { st with past_samps := past }).rng
          ((updateCore { st with past_samps := past }).rng_idx + 1)⟩,
    { updateCore { st with past_samps := past } with
        rng_idx := (updateCore { st with past_samps := past }).rng_idx + 2 },
    ?_, ?_⟩
  · unfold nextSample
    rw [if_neg (not_lt.2 h1), chanRecv_cons, bind_ok]
    unfold streamPull
    rw [if_pos h2, hpast, toOutcomeStuck_some, bind_ok]
    unfold streamBody updateCumPhaseOffset
    rw [if_neg (by simpa using not_lt.2 h4), if_neg (by simpa using not_lt.2 h5),
        toOutcomeFatal_some, bind_ok]
    rw [if_neg (by simpa using not_lt.2 h6)]
  · exact ⟨by simpa using h1, by simpa using h2, by simpa using h3,
      by simpa using h4, by simpa using h5, by simpa using h6⟩

/-- Filling as many samples as are queued succeeds on a closed channel. -/
theorem recvLoop_ok_drain (q : List ℂ) : ∀ (st : SimulatedRadioRx) (i : ℕ),
    StreamReady st →
    ∃ st' ch', recvLoop i q.length st ⟨q, true⟩ = .ok (st', ch') := by
  induction q with
  | nil => intro st i _; exact ⟨st, ⟨[], true⟩, rfl⟩
  | cons c q ih =>
      intro st i h
      obtain ⟨v, st', hstep, hready⟩ := nextSample_cons st c q true h
      obtain ⟨st'', ch'', hrest⟩ :=
        ih { st' with buf := st'.buf.set i v } (i + 1)
          (streamReady_setBuf st' _ hready)
      refine ⟨st'', ch'', ?_⟩
      simp only [List.length_cons, recvLoop, hstep, bind_ok]
      exact hrest

/-- Asking for one more sample than was queued fails with the recoverable
channel-closed error, exactly at that extra sample. -/
theorem recvLoop_err_after_drain (q : List ℂ) :
    ∀ (st : SimulatedRadioRx) (i : ℕ), StreamReady st →
    recvLoop i (q.length + 1) st ⟨q, true⟩ = .err := by
  induction q with
  | nil =>
      intro st i h
      have hns : nextSample st ⟨[], true⟩ = .err := by
        unfold nextSample
        rw [if_neg (not_lt.2 h.1), chanRecv_nil_closed, bind_err]
      simp only [List.length_nil, recvLoop, hns, bind_err]
  | cons c q ih =>
      intro st i h
      obtain ⟨v, st', hstep, hready⟩ := nextSample_cons st c q true h
      simp only [List.length_cons, recvLoop, hstep, bind_ok]
      exact ih { st' with buf := st'.buf.set i v } (i + 1)
        (streamReady_setBuf st' _ hready)

/-- Claim C9: after the transmitter sends exactly the samples q and is
dropped, a StreamReady receiver can still deliver all of them — recv of
length q succeeds — while recv of length q + 1 fails with the recoverable
channel-closed error, raised exactly when the extra sample is produced,
not before. -/
theorem c9_channel_closed_at_k_plus_one (st : SimulatedRadioRx)
    (q : List ℂ) (h : StreamReady st) :
    (recvModel st (dropTransmitter (sendSamples ⟨[], false⟩ q))
        q.length).isOk = true ∧
    recvModel st (dropTransmitter (sendSamples ⟨[], false⟩ q))
        (q.length + 1) = .err := by
  have hch : dropTransmitter (sendSamples ⟨[], false⟩ q) = ⟨q, true⟩ := by
    simp [dropTransmitter, sendSamples]
  rw [hch]
  constructor
  · simp only [recvModel]
    split
    · obtain ⟨st', ch', hok⟩ :=
        recvLoop_ok_drain q _ 0 (streamReady_setBuf st _ h)
      rw [hok, bind_ok]
      rfl
    · obtain ⟨st', ch', hok⟩ := recvLoop_ok_drain q st 0 h
      rw [hok, bind_ok]
      rfl
  · simp only [recvModel]
    split
    · rw [recvLoop_err_after_drain q _ 0 (streamReady_setBuf st _ h)]
      rfl
    · rw [recvLoop_err_after_drain q st 0 h]
      rfl

/-- Witness for c9_channel_closed_at_k_plus_one: two samples sent and the
transmitter dropped; recv(2) succeeds and recv(3) errors. -/
theorem c9_channel_closed_at_k_plus_one_witness :
    (recvModel rxCfoNegOne (dropTransmitter (sendSamples ⟨[], false⟩ [1, 1]))
        2).isOk = true ∧
    recvModel rxCfoNegOne (dropTransmitter (sendSamples ⟨[], false⟩ [1, 1]))
        3 = .err :=
  c9_channel_closed_at_k_plus_one rxCfoNegOne [1, 1]
    ⟨Nat.le_refl 0,
      by norm_num [rxCfoNegOne, cfgCfoOne],
      by norm_num [rxCfoNegOne, cfgCfoOne],
      by norm_num [rxCfoNegOne, cfgCfoOne],
      by norm_num [rxCfoNegOne, cfgCfoOne],
      by norm_num [rxCfoNegOne, cfgCfoOne]⟩
